import Mathlib

/-!
Shallow embedding of `pyanaconda/modules/storage/bootloader/systemd.py`
(class `SYSTEMD`, the systemd-boot back end of the anaconda boot-loader
module).

The effectful methods are modelled as pure functions from their inputs (the
target system root, the instance attributes they read, and the exit codes
the external programs return) to a trace of the externally visible effects
they perform, paired with the optionally raised `BootLoaderError`.  File
writes, durability syncs and external program invocations are trace events.
`write_device_map` manipulates the filesystem directly, so it is modelled
over an explicit path-to-content map.
-/

/-- The one error class the source raises: `BootLoaderError(msg)`. -/
inductive PyErr where
  | bootLoaderError (msg : String)
  deriving DecidableEq, Repr

/-- Externally visible effects of the `SYSTEMD` methods, in program order:
`evWriteDeviceMap` is the call to `write_device_map` inside `write`,
`evSyncStage2` is `self.stage2_device.format.sync(root=...)`, `evOsSync` is
`os.sync()`, `evExec prog args root envPrune` is
`util.execWithRedirect(prog, args, root=root, env_prune=envPrune)`, and
`evFileWrite path content` is an `open(path, "w"); write; close` sequence. -/
inductive Event where
  | evWriteDeviceMap
  | evSyncStage2
  | evOsSync
  | evExec (prog : String) (args : List String) (root : String) (envPrune : List String)
  | evFileWrite (path : String) (content : String)
  deriving DecidableEq, Repr

/-- The attributes of the `SYSTEMD` instance that `write_config` reads:
`self.console` and `self.console_options` (both falsy exactly when empty, as
in Python), and `self.boot_args._arguments` in insertion order. -/
structure SDState where
  console : String
  console_options : String
  boot_args : List String
  deriving DecidableEq, Repr

/-- A storage device as the modelled methods read it: only its identity and
its `is_disk` attribute are consumed. -/
structure Device where
  name : String
  is_disk : Bool
  deriving DecidableEq, Repr

/-- A filesystem as a partial map from paths to file contents. -/
abbrev FS := String → Option String

namespace SYSTEMD

/-- Modelled from the spec: `self.boot_args.add(token)` lives in the missing
`BootLoader` base class; per the spec the accumulator appends `token` when it
is not already present and otherwise does nothing. -/
def bootArgsAdd (args : List String) (tok : String) : List String :=
  if tok ∈ args then args else args ++ [tok]

/-- `SYSTEMD.write_config_console` (systemd.py lines 138-146): when
`self.console` is non-empty, build `console=<console>[,<options>]` and add it
to the boot-arg accumulator. -/
def write_config_console (st : SDState) : SDState :=
  if st.console = "" then st
  else
    let console_arg :=
      "console=" ++ st.console ++
        (if st.console_options = "" then "" else "," ++ st.console_options)
    { st with boot_args := bootArgsAdd st.boot_args console_arg }

/-- Content written to `loader.conf` (lines 163-166): the two consecutive
`config.write` calls, concatenated. -/
def loaderConfContent : String := "timeout 3\n#console-mode keep\n"

/-- Content written to the cmdline file (lines 175-178):
`" ".join(list(self.boot_args._arguments))` followed by the appended
`" root=/dev/mapper/fedora_fedora-root"`. -/
def cmdlineContent (args : List String) : String :=
  String.intercalate " " args ++ " root=/dev/mapper/fedora_fedora-root"

/-- `SYSTEMD.write_config` (lines 150-191): add the console argument, rewrite
`<root>/boot/efi/loader/loader.conf`, rewrite `<root>/etc/kernel/cmdline`,
then run `/usr/sbin/updateloaderentries.sh` under the target root; a
non-zero exit (`mergeRC`) raises
`BootLoaderError("failed to write boot loader configuration")`. -/
def write_config (root : String) (st : SDState) (mergeRC : Nat) :
    List Event × Option PyErr :=
  let st1 := write_config_console st
  ([Event.evFileWrite (root ++ "/boot/efi/loader/loader.conf") loaderConfContent,
    Event.evFileWrite (root ++ "/etc/kernel/cmdline") (cmdlineContent st1.boot_args),
    Event.evExec "/usr/sbin/updateloaderentries.sh" [" "] root []],
   if mergeRC = 0 then none
   else some (PyErr.bootLoaderError "failed to write boot loader configuration"))

/-- `SYSTEMD.installbootmgr` (lines 250-261): run
`bootctl install --esp-path=/boot/efi` against `conf.target.system_root`
with `MALLOC_PERTURB_` pruned from the child's environment; a non-zero exit
status (`rc`) raises `BootLoaderError("boot loader install failed")`. -/
def installbootmgr (root : String) (rc : Nat) : List Event × Option PyErr :=
  ([Event.evExec "bootctl" ["install", "--esp-path=/boot/efi"] root ["MALLOC_PERTURB_"]],
   if rc = 0 then none
   else some (PyErr.bootLoaderError "boot loader install failed"))

/-- `SYSTEMD.write` (lines 263-278), with Python `try/finally` semantics made
explicit.  The `try` block runs `write_device_map`, a stage2 flush,
`os.sync()`, the install step, and — only when the install step did not
raise — `os.sync()` and a second stage2 flush.  The `finally` block always
runs `write_config` and, only when `write_config` did not raise,
`os.sync()` and a stage2 flush.  The error that leaves `write` is
`write_config`'s when it raised, otherwise the `try` block's.  The install
step is `self.install()` of the missing base class; per the spec it is the
Installer Invoker, so it is modelled as `installbootmgr` with exit code
`installRC`. -/
def write (root : String) (st : SDState) (installRC mergeRC : Nat) :
    List Event × Option PyErr :=
  let inst := installbootmgr root installRC
  let tryTrace :=
    [Event.evWriteDeviceMap, Event.evSyncStage2, Event.evOsSync] ++ inst.1 ++
      (if inst.2 = none then [Event.evOsSync, Event.evSyncStage2] else [])
  let cfg := write_config root st mergeRC
  if cfg.2 = none then
    (tryTrace ++ cfg.1 ++ [Event.evOsSync, Event.evSyncStage2], inst.2)
  else
    (tryTrace ++ cfg.1, cfg.2)

/-- `SYSTEMD.install_targets` (lines 229-248): despite the comment block in
the source describing redundant stage1 targets for every disk backing the
stage2 array, the body only initialises a `stage2_raid` flag it never reads
and returns the single primary pair. -/
def install_targets (stage1_device stage2_device : Device) :
    List (Device × Device) :=
  let _stage2_raid := false
  [(stage1_device, stage2_device)]

/-- Lines 124-132 of `write_device_map`: start from `self.disks`, append the
stage1 device if absent, append each backing disk of the stage2 device if
absent, then keep only the devices whose `is_disk` is true. -/
def device_map_devices (disks : List Device) (stage1_device : Device)
    (stage2Disks : List Device) : List Device :=
  let devices := if stage1_device ∈ disks then disks else disks ++ [stage1_device]
  let devices :=
    stage2Disks.foldl
      (fun (acc : List Device) (d : Device) => if d ∈ acc then acc else acc ++ [d])
      devices
  devices.filter (fun d => d.is_disk)

/-- `SYSTEMD.write_device_map` (lines 117-135).  `map_path` stands for
`os.path.normpath(conf.target.system_root + self.device_map_file)` (the
`device_map_file` property is commented out in this file, so the assembled
path is a parameter here); `stage2Disks` is `self.stage2_device.disks`.  If
the map file exists (readable), it is renamed to `map_path + ".anacbak"`.
The device list is then assembled and filtered, and the method returns — on
both branches of the final emptiness test — without writing anything. -/
def write_device_map (fs : FS) (map_path : String) (disks : List Device)
    (stage1_device : Device) (stage2Disks : List Device) : FS :=
  let fs1 : FS :=
    if (fs map_path).isSome then
      fun q =>
        if q = map_path ++ ".anacbak" then fs map_path
        else if q = map_path then none
        else fs q
    else fs
  let devices := device_map_devices disks stage1_device stage2Disks
  if devices.length = 0 then fs1 else fs1

/-- A `SYSTEMD` state with no console and an empty boot-arg accumulator. -/
def st0 : SDState := ⟨"", "", []⟩

/-- A disk device, used as the primary stage1 device in the fixtures. -/
def sda : Device := ⟨"sda", true⟩

/-- A second disk device, the disk backing the stage2 partition. -/
def sdb : Device := ⟨"sdb", true⟩

/-- A partition residing on `sdb`, used as the stage2 device. -/
def sdb1 : Device := ⟨"sdb1", false⟩

/-- A filesystem holding one pre-existing device map at the legacy path. -/
def fs0 : FS :=
  fun p => if p = "/mnt/boot/efi/loader/device.map" then some "(hd0) /dev/sda" else none

end SYSTEMD

namespace SYSTEMD

/-- C7: every call to `write_config` writes the loader descriptor with exactly
the byte string `"timeout 3\n#console-mode keep\n"` and then the cmdline file
with the accumulated boot args joined by single spaces, with the fixed
root-device argument appended exactly once after them, before invoking the
merge script. -/
theorem write_config_roundtrip (root : String) (st : SDState) (mergeRC : Nat) :
    (write_config root st mergeRC).1 =
      [Event.evFileWrite (root ++ "/boot/efi/loader/loader.conf")
          "timeout 3\n#console-mode keep\n",
       Event.evFileWrite (root ++ "/etc/kernel/cmdline")
          (String.intercalate " " (write_config_console st).boot_args ++
            " root=/dev/mapper/fedora_fedora-root"),
       Event.evExec "/usr/sbin/updateloaderentries.sh" [" "] root []] := rfl

/-- C9: in `write_config` the merge script is invoked only after the cmdline
file is written (trace positions 1 and 2 of the 3-event trace), a non-zero
merge exit raises `BootLoaderError "failed to write boot loader
configuration"` while a zero exit raises nothing, and that message differs
from the installer failure message although both are the same error kind
(`PyErr.bootLoaderError`). -/
theorem write_config_merge_last (root : String) (st : SDState) (mergeRC : Nat) :
    (write_config root st mergeRC).1.length = 3 ∧
    (write_config root st mergeRC).1[1]? =
      some (Event.evFileWrite (root ++ "/etc/kernel/cmdline")
        (cmdlineContent (write_config_console st).boot_args)) ∧
    (write_config root st mergeRC).1[2]? =
      some (Event.evExec "/usr/sbin/updateloaderentries.sh" [" "] root []) ∧
    (write_config root st mergeRC).2 =
      (if mergeRC = 0 then none
       else some (PyErr.bootLoaderError "failed to write boot loader configuration")) ∧
    (("failed to write boot loader configuration" : String) ==
        "boot loader install failed") = false :=
  ⟨rfl, rfl, rfl, rfl, by decide⟩

/-- C10: whenever `write_config` raises the merge-script error, both the
loader descriptor and the cmdline file have already been fully overwritten
with the new contents, at trace positions strictly before the merge-script
invocation. -/
theorem write_config_not_atomic (root : String) (st : SDState) (mergeRC : Nat)
    (h : (write_config root st mergeRC).2 =
      some (PyErr.bootLoaderError "failed to write boot loader configuration")) :
    (write_config root st mergeRC).1[0]? =
      some (Event.evFileWrite (root ++ "/boot/efi/loader/loader.conf")
        loaderConfContent) ∧
    (write_config root st mergeRC).1[1]? =
      some (Event.evFileWrite (root ++ "/etc/kernel/cmdline")
        (cmdlineContent (write_config_console st).boot_args)) ∧
    (write_config root st mergeRC).1[2]? =
      some (Event.evExec "/usr/sbin/updateloaderentries.sh" [" "] root []) :=
  ⟨rfl, rfl, rfl⟩

/-- Witness for C10: with the merge script exiting 1 under an empty state,
`write_config` raises, and both files were already overwritten. -/
theorem write_config_not_atomic_w :
    (write_config "" st0 1).1[0]? =
      some (Event.evFileWrite ("" ++ "/boot/efi/loader/loader.conf")
        loaderConfContent) ∧
    (write_config "" st0 1).1[1]? =
      some (Event.evFileWrite ("" ++ "/etc/kernel/cmdline")
        (cmdlineContent (write_config_console st0).boot_args)) ∧
    (write_config "" st0 1).1[2]? =
      some (Event.evExec "/usr/sbin/updateloaderentries.sh" [" "] "" []) :=
  write_config_not_atomic "" st0 1 rfl

/-- C8: the installer invocation runs exactly one external program — `bootctl
install --esp-path=/boot/efi` — against the target root, with
`MALLOC_PERTURB_` excluded from the child's environment, and it raises
`BootLoaderError "boot loader install failed"` precisely when the program's
exit status is non-zero. -/
theorem installbootmgr_contract (root : String) (rc : Nat) :
    (installbootmgr root rc).1 =
      [Event.evExec "bootctl" ["install", "--esp-path=/boot/efi"] root
        ["MALLOC_PERTURB_"]] ∧
    (installbootmgr root rc).2 =
      (if rc = 0 then none
       else some (PyErr.bootLoaderError "boot loader install failed")) :=
  ⟨rfl, rfl⟩

/-- C3: when both the install phase and the config-writing phase of `write`
fail, the propagated error is the config-write error; the install error —
which the install phase did produce — is discarded, the two errors being
distinct. -/
theorem write_config_error_masks_install (root : String) (st : SDState)
    (installRC mergeRC : Nat) (h1 : installRC ≠ 0) (h2 : mergeRC ≠ 0) :
    (write root st installRC mergeRC).2 =
      some (PyErr.bootLoaderError "failed to write boot loader configuration") ∧
    (installbootmgr root installRC).2 =
      some (PyErr.bootLoaderError "boot loader install failed") ∧
    ((PyErr.bootLoaderError "failed to write boot loader configuration" ==
        PyErr.bootLoaderError "boot loader install failed") = false) := by
  refine ⟨?_, ?_, by decide⟩
  · simp [write, write_config, installbootmgr, h2]
  · simp [installbootmgr, h1]

/-- Witness for C3: installer exit 1 and merge-script exit 1 under an empty
state propagate the config-write error while the install error is produced
and discarded. -/
theorem write_config_error_masks_install_w :
    (write "" st0 1 1).2 =
      some (PyErr.bootLoaderError "failed to write boot loader configuration") ∧
    (installbootmgr "" 1).2 =
      some (PyErr.bootLoaderError "boot loader install failed") ∧
    ((PyErr.bootLoaderError "failed to write boot loader configuration" ==
        PyErr.bootLoaderError "boot loader install failed") = false) :=
  write_config_error_masks_install "" st0 1 1 (by decide) (by decide)

/-- C1 (amended): `write_config` runs — writing both the loader descriptor
and the cmdline file — on every exit path of `write` out of the install
phase, success or failure; when `write_config` itself succeeds, the trace
ends with the final durability sync (`os.sync` then the stage2 flush) and an
install failure is re-raised; when `write_config` itself fails, its error
propagates in place of the install error and the trailing sync is skipped,
the last event being the merge-script invocation. -/
theorem write_always_writes_config (root : String) (st : SDState)
    (installRC mergeRC : Nat) :
    Event.evFileWrite (root ++ "/boot/efi/loader/loader.conf") loaderConfContent
        ∈ (write root st installRC mergeRC).1 ∧
    Event.evFileWrite (root ++ "/etc/kernel/cmdline")
        (cmdlineContent (write_config_console st).boot_args)
        ∈ (write root st installRC mergeRC).1 ∧
    (write root st installRC mergeRC).1.getLast? =
      (if mergeRC = 0 then some Event.evSyncStage2
       else some (Event.evExec "/usr/sbin/updateloaderentries.sh" [" "] root [])) ∧
    (write root st installRC mergeRC).2 =
      (if mergeRC = 0 then
         (if installRC = 0 then none
          else some (PyErr.bootLoaderError "boot loader install failed"))
       else some (PyErr.bootLoaderError "failed to write boot loader configuration")) := by
  rcases installRC with _ | i <;> rcases mergeRC with _ | m <;>
    exact ⟨by simp [write, write_config, installbootmgr],
           by simp [write, write_config, installbootmgr],
           rfl, rfl⟩

/-- C1 counterexample: with the installer failing (exit 1) and the merge
script also failing (exit 1), `write` propagates the config-write error
rather than re-raising the original install failure, and the last trace
event is the merge-script invocation — no final durability sync happens on
this exit path. -/
theorem write_no_final_sync_cex :
    (write "" st0 1 1).2 =
      some (PyErr.bootLoaderError "failed to write boot loader configuration") ∧
    ((write "" st0 1 1).2 ==
        some (PyErr.bootLoaderError "boot loader install failed")) = false ∧
    (write "" st0 1 1).1.getLast? =
      some (Event.evExec "/usr/sbin/updateloaderentries.sh" [" "] "" []) :=
  ⟨rfl, by decide, rfl⟩

/-- C4 (amended): when the installer and the merge script both succeed, the
stage2-device flush plus the global `os.sync` bracket the install step on
both sides and the config-writing phase on both sides; when the installer
fails, the post-install flushes are skipped and the config-writing phase
begins with no intervening flush. -/
theorem write_sync_brackets (root : String) (st : SDState) :
    (write root st 0 0).1 =
      [Event.evWriteDeviceMap, Event.evSyncStage2, Event.evOsSync,
       Event.evExec "bootctl" ["install", "--esp-path=/boot/efi"] root
         ["MALLOC_PERTURB_"],
       Event.evOsSync, Event.evSyncStage2,
       Event.evFileWrite (root ++ "/boot/efi/loader/loader.conf") loaderConfContent,
       Event.evFileWrite (root ++ "/etc/kernel/cmdline")
         (cmdlineContent (write_config_console st).boot_args),
       Event.evExec "/usr/sbin/updateloaderentries.sh" [" "] root [],
       Event.evOsSync, Event.evSyncStage2] ∧
    (write root st 1 0).1 =
      [Event.evWriteDeviceMap, Event.evSyncStage2, Event.evOsSync,
       Event.evExec "bootctl" ["install", "--esp-path=/boot/efi"] root
         ["MALLOC_PERTURB_"],
       Event.evFileWrite (root ++ "/boot/efi/loader/loader.conf") loaderConfContent,
       Event.evFileWrite (root ++ "/etc/kernel/cmdline")
         (cmdlineContent (write_config_console st).boot_args),
       Event.evExec "/usr/sbin/updateloaderentries.sh" [" "] root [],
       Event.evOsSync, Event.evSyncStage2] :=
  ⟨rfl, rfl⟩

/-- C4 counterexample: when the installer fails, the event immediately
following the installer invocation is the loader-descriptor write — no
stage2 flush and no global sync occur between the install phase and the
config-writing phase on this execution path. -/
theorem write_sync_brackets_cex :
    (write "" st0 1 0).1[3]? =
      some (Event.evExec "bootctl" ["install", "--esp-path=/boot/efi"] ""
        ["MALLOC_PERTURB_"]) ∧
    (write "" st0 1 0).1[4]? =
      some (Event.evFileWrite "/boot/efi/loader/loader.conf" loaderConfContent) :=
  ⟨rfl, rfl⟩

/-- C2 evaluation at the failing input: stage1 is the disk `sda`, stage2 the
partition `sdb1` whose backing disk `sdb` is not among the chosen devices;
`install_targets` still returns only the primary pair, and `sdb` appears as
no target's stage1 device, although the redundancy rule in the source's own
comment block calls for it. -/
theorem install_targets_no_redundancy :
    install_targets sda sdb1 = [(sda, sdb1)] ∧
    (install_targets sda sdb1).map Prod.fst = [sda] ∧
    ((install_targets sda sdb1).map Prod.fst).contains sdb = false :=
  ⟨rfl, rfl, by decide⟩

/-- C5 evaluation at the failing input: a device map exists at the legacy
path and the filtered device set (`[sda, sdb]`, both disks) is non-empty,
yet after `write_device_map` the old content survives only under the backup
suffix and the active path holds nothing — no new map is ever written. -/
theorem write_device_map_writes_nothing :
    device_map_devices [sda] sda [sdb] = [sda, sdb] ∧
    SYSTEMD.write_device_map fs0 "/mnt/boot/efi/loader/device.map" [sda] sda [sdb]
        ("/mnt/boot/efi/loader/device.map" ++ ".anacbak") = some "(hd0) /dev/sda" ∧
    SYSTEMD.write_device_map fs0 "/mnt/boot/efi/loader/device.map" [sda] sda [sdb]
        "/mnt/boot/efi/loader/device.map" = none :=
  ⟨rfl, by decide, by decide⟩

/-- C6 counterexample: with an empty boot-arg accumulator (and no console),
the cmdline content `write_config` writes has a leading space before the
root argument; it is not the bare root token. -/
theorem cmdline_leading_space_cex :
    (write_config "" st0 0).1[1]? =
      some (Event.evFileWrite "/etc/kernel/cmdline"
        " root=/dev/mapper/fedora_fedora-root") ∧
    ((" root=/dev/mapper/fedora_fedora-root" : String) ==
        "root=/dev/mapper/fedora_fedora-root") = false :=
  ⟨rfl, by decide⟩

/-- C6 (amended): when the boot-arg accumulator is empty and no console
argument is added, the cmdline content written by `write_config` is exactly
one space followed by the root-device argument token. -/
theorem cmdline_empty_args (root : String) (st : SDState)
    (h1 : st.console = "") (h2 : st.boot_args = []) :
    (write_config root st 0).1[1]? =
      some (Event.evFileWrite (root ++ "/etc/kernel/cmdline")
        (" " ++ "root=/dev/mapper/fedora_fedora-root")) := by
  rcases st with ⟨c, co, ba⟩
  dsimp only at h1 h2
  subst h1; subst h2
  rfl

/-- Witness for C6 (amended) at the empty fixture state. -/
theorem cmdline_empty_args_w :
    (write_config "" st0 0).1[1]? =
      some (Event.evFileWrite ("" ++ "/etc/kernel/cmdline")
        (" " ++ "root=/dev/mapper/fedora_fedora-root")) :=
  cmdline_empty_args "" st0 rfl rfl

end SYSTEMD
